import Mathlib

/-!
Shallow embedding of `custom_components/powertag_gateway/schneider_modbus.py`:
the Modbus register codec and addressing layer of the PowerTag gateway
integration.  Python exceptions are modelled as the error side of `Except`,
Python `None` as `Option.none`, and the transport collaborator
(`pymodbus` client) as a function from `(address, count, unit)` to either a
register-word list or a transport failure.
-/

namespace PowerTag

/-- Python runtime exceptions that the module can raise.
`connectionError` covers both the `ConnectionError` raised in `__read` on an
exception response and the `ConnectionError("Could not find synthetic slave ID")`
raised by `find_synthentic_table_slave_id` (the spec's `SynthesisTableNotFound`);
`valueError` covers enum-lookup failure (the spec's `UnknownEnumCode`) and
out-of-range `datetime` construction (the spec's `InvalidTimestamp`);
`assertionError` is a failed `assert`; `typeError` is an illegal operation on
mismatched types such as `None & 1`; `structError` is a byte-level
packing/unpacking failure inside the payload decoder (the spec's
`MalformedResponse`). -/
inductive PyError where
  | connectionError
  | valueError
  | assertionError
  | typeError
  | structError
deriving DecidableEq

/-- The transport collaborator: `read(address, count, unit)` yields the
register words (each a 16-bit quantity) or fails. -/
abbrev Transport := Nat → Nat → Nat → Except PyError (List Nat)

/-- The write half of the transport: `write(address, unit, words)`. -/
abbrev WriteTransport := Nat → Nat → List Nat → Except PyError Unit

/-- `BinaryPayloadDecoder.fromRegisters(registers, byteorder=Big, wordorder=Big)`:
the register words in order, each split into high byte then low byte. -/
def registersToBytes (rs : List Nat) : List Nat :=
  (rs.map (fun r => [r / 256 % 256, r % 256])).flatten

/-- `decode_16bit_uint`: consume two bytes big-endian from the byte stream,
returning the value and the rest of the stream; fewer than two bytes is a
`struct.error`. -/
def decode_16bit_uint (bytes : List Nat) : Except PyError (Nat × List Nat) :=
  match bytes with
  | b0 :: b1 :: rest => .ok (b0 * 256 + b1, rest)
  | _ => .error .structError

/-- `decode_32bit_uint`: four bytes big-endian. -/
def decode_32bit_uint (bytes : List Nat) : Except PyError (Nat × List Nat) :=
  match bytes with
  | b0 :: b1 :: b2 :: b3 :: rest =>
      .ok (((b0 * 256 + b1) * 256 + b2) * 256 + b3, rest)
  | _ => .error .structError

/-- `decode_64bit_uint`: eight bytes big-endian. -/
def decode_64bit_uint (bytes : List Nat) : Except PyError (Nat × List Nat) :=
  match bytes with
  | b0 :: b1 :: b2 :: b3 :: b4 :: b5 :: b6 :: b7 :: rest =>
      .ok (((((((b0 * 256 + b1) * 256 + b2) * 256 + b3) * 256 + b4) * 256 + b5)
              * 256 + b6) * 256 + b7, rest)
  | _ => .error .structError

/-- `decode_32bit_float`: four bytes big-endian.  We represent the decoded
IEEE-754 binary32 value by its 32-bit pattern; the only operation the module
applies to it is the `math.isnan` test, and the patterns used in the theorems
below denote pairwise distinct float values. -/
def decode_32bit_float (bytes : List Nat) : Except PyError (Nat × List Nat) :=
  decode_32bit_uint bytes

/-- `math.isnan` on a binary32 pattern: exponent bits all set, mantissa
nonzero. -/
def isnan32 (pattern : Nat) : Bool :=
  (pattern >>> 23) % 256 = 255 && pattern % (2 ^ 23) ≠ 0

/-- The unit-identifier assertion guarding the numeric helpers:
`assert (1 <= unit <= 247) or (unit == 255)`. -/
def unitIdOk (unit : Nat) : Prop := (1 ≤ unit ∧ unit ≤ 247) ∨ unit = 255

instance (u : Nat) : Decidable (unitIdOk u) := by
  unfold unitIdOk; infer_instance

/-- Pure part of `__read_int_16` after the transport read: decode one word,
absent iff the sentinel `0xFFFF`. -/
def decodeInt16 (registers : List Nat) : Except PyError (Option Nat) := do
  let (result, _) ← decode_16bit_uint (registersToBytes registers)
  return if result = 0xFFFF then none else some result

/-- Pure part of `__read_int_32`: two words high-first, absent iff
`0x8000_0000`. -/
def decodeInt32 (registers : List Nat) : Except PyError (Option Nat) := do
  let (result, _) ← decode_32bit_uint (registersToBytes registers)
  return if result = 0x80000000 then none else some result

/-- Pure part of `__read_int_64`: four words high-first, absent iff
`0x8000_0000_0000_0000`. -/
def decodeInt64 (registers : List Nat) : Except PyError (Option Nat) := do
  let (result, _) ← decode_64bit_uint (registersToBytes registers)
  return if result = 0x8000000000000000 then none else some result

/-- Pure part of `__read_float_32`: two words, absent iff the pattern is NaN. -/
def decodeFloat32 (registers : List Nat) : Except PyError (Option Nat) := do
  let (result, _) ← decode_32bit_float (registersToBytes registers)
  return if isnan32 result then none else some result

/-- `__read_int_16`: assert the unit identifier, read one word, decode. -/
def read_int_16 (tp : Transport) (address unit : Nat) :
    Except PyError (Option Nat) :=
  if ¬ unitIdOk unit then .error .assertionError
  else do
    let registers ← tp address 1 unit
    decodeInt16 registers

/-- `__read_int_32`: assert the unit identifier, read two words, decode. -/
def read_int_32 (tp : Transport) (address unit : Nat) :
    Except PyError (Option Nat) :=
  if ¬ unitIdOk unit then .error .assertionError
  else do
    let registers ← tp address 2 unit
    decodeInt32 registers

/-- `__read_int_64`: assert the unit identifier, read four words, decode. -/
def read_int_64 (tp : Transport) (address unit : Nat) :
    Except PyError (Option Nat) :=
  if ¬ unitIdOk unit then .error .assertionError
  else do
    let registers ← tp address 4 unit
    decodeInt64 registers

/-- `__read_float_32`: assert the unit identifier, read two words, decode. -/
def read_float_32 (tp : Transport) (address unit : Nat) :
    Except PyError (Option Nat) :=
  if ¬ unitIdOk unit then .error .assertionError
  else do
    let registers ← tp address 2 unit
    decodeFloat32 registers

/-- `BinaryPayloadBuilder.add_16bit_uint` followed by `to_registers`: one word;
`struct.pack` fails on a value outside 16 bits. -/
def add_16bit_uint (value : Nat) : Except PyError (List Nat) :=
  if value < 0x10000 then .ok [value] else .error .structError

/-- `__write_int_16`: assert the unit identifier, pack the value, write. -/
def write_int_16 (wtp : WriteTransport) (address unit value : Nat) :
    Except PyError Unit :=
  if ¬ unitIdOk unit then .error .assertionError
  else do
    let registers ← add_16bit_uint value
    wtp address unit registers

/-- In Python 3 iterating a `bytes` object yields `int`s, so the comparison
`c == '\x00'` in `__read_string` compares an `int` with a one-character `str`;
values of different types compare unequal under Python `==`, so the comparison
is `False` for every byte. -/
def pyByteEqNulStr (_b : Nat) : Bool := false

/-- `bytes.decode` restricted to the ASCII range, which is all this register
map carries: each byte becomes the character with that code point. -/
def asciiDecode (bytes : List Nat) : String :=
  String.mk (bytes.map Char.ofNat)

/-- `__read_string` (note: no unit-identifier assertion in the source): read
`count` words, take the first `string_length` bytes, return `None` when every
byte "equals" the `str` `'\x00'` (see `pyByteEqNulStr`), else drop the zero
bytes and decode the rest. -/
def read_string (tp : Transport) (address count unit string_length : Nat) :
    Except PyError (Option String) := do
  let registers ← tp address count unit
  let ascii_bytes := (registersToBytes registers).take string_length
  if ascii_bytes.all pyByteEqNulStr then
    return none
  else
    let filtered_ascii_bytes := ascii_bytes.filter (fun b => b ≠ 0)
    return some (asciiDecode filtered_ascii_bytes)

/-- Python's `datetime`: the seventh positional argument of the constructor is
the microsecond field (the source passes its computed millisecond value
there). -/
structure PyDatetime where
  year : Nat
  month : Nat
  day : Nat
  hour : Nat
  minute : Nat
  second : Nat
  microsecond : Nat
deriving DecidableEq

/-- Gregorian leap-year rule, as `datetime` uses. -/
def isLeapYear (y : Nat) : Bool :=
  (y % 4 = 0 && y % 100 ≠ 0) || y % 400 = 0

/-- Number of days in a month, as `datetime` uses for range checking. -/
def daysInMonth (y m : Nat) : Nat :=
  if m = 2 then (if isLeapYear y then 29 else 28)
  else if m = 4 ∨ m = 6 ∨ m = 9 ∨ m = 11 then 30
  else 31

/-- The `datetime(year, month, day, hour, minute, second, microsecond)`
constructor: `ValueError` (the spec's `InvalidTimestamp`) when a field is out
of calendar range. -/
def datetimeNew (year month day hour minute second microsecond : Nat) :
    Except PyError PyDatetime :=
  if 1 ≤ year ∧ year ≤ 9999 ∧ 1 ≤ month ∧ month ≤ 12 ∧
     1 ≤ day ∧ day ≤ daysInMonth year month ∧
     hour ≤ 23 ∧ minute ≤ 59 ∧ second ≤ 59 ∧ microsecond ≤ 999999 then
    .ok ⟨year, month, day, hour, minute, second, microsecond⟩
  else
    .error .valueError

/-- `__read_date_time` (note: no unit-identifier assertion in the source):
read four words, decompose them by the documented bit fields, return `None`
when all four words are `0xFFFF`, else construct the `datetime`. -/
def read_date_time (tp : Transport) (address unit : Nat) :
    Except PyError (Option PyDatetime) := do
  let registers ← tp address 4 unit
  let bytes := registersToBytes registers
  let (year_raw, bytes) ← decode_16bit_uint bytes
  let year := (year_raw &&& 0x7F) + 2000
  let (day_month, bytes) ← decode_16bit_uint bytes
  let day := day_month &&& 0x1F
  let month := (day_month >>> 8) &&& 0x0F
  let (minute_hour, bytes) ← decode_16bit_uint bytes
  let minute := minute_hour &&& 0x3F
  let hour := (minute_hour >>> 8) &&& 0x1F
  let (second_millisecond, _) ← decode_16bit_uint bytes
  let second := second_millisecond / 1000
  let millisecond := second_millisecond - second * 1000
  if year_raw = 0xFFFF ∧ day_month = 0xFFFF ∧ minute_hour = 0xFFFF ∧
     second_millisecond = 0xFFFF then
    return none
  else
    let dt ← datetimeNew year month day hour minute second millisecond
    return some dt

/-- `AlarmStatus`: the named alarm flags decoded from the alarm bitmap
register. -/
structure AlarmStatus where
  has_alarm : Bool
  alarm_voltage_loss : Bool
  alarm_current_overload : Bool
  alarm_overload_45_percent : Bool
  alarm_load_current_loss : Bool
  alarm_overvoltage : Bool
  alarm_undervoltage : Bool
  alarm_heattag_alarm : Bool
  alarm_heattag_maintenance : Bool
  alarm_heattag_replacement : Bool
deriving DecidableEq

/-- `AlarmStatus.__init__`: the source first masks the bitmask to its low
eight bits (`lower_mask = bitmask & 0b1111_1111`) and then derives every flag,
including the heattag flags at bits 8, 10 and 11, from `lower_mask`. -/
def AlarmStatus.ofBitmask (bitmask : Nat) : AlarmStatus :=
  let lower_mask := bitmask &&& 0xFF
  ⟨lower_mask ≠ 0,
   lower_mask &&& 0x1 ≠ 0,
   lower_mask &&& 0x2 ≠ 0,
   lower_mask &&& 0x8 ≠ 0,
   lower_mask &&& 0x10 ≠ 0,
   lower_mask &&& 0x20 ≠ 0,
   lower_mask &&& 0x40 ≠ 0,
   lower_mask &&& 0x100 ≠ 0,
   lower_mask &&& 0x400 ≠ 0,
   lower_mask &&& 0x800 ≠ 0⟩

/-- The `DeviceUsage` enum. -/
inductive DeviceUsage where
  | main_incomer
  | sub_head_of_group
  | heating
  | cooling
  | hvac
  | ventilation
  | lighting
  | office_equipment
  | cooking
  | food_refrigeration
  | elevators
  | computers
  | renewable_energy_production
  | genset
  | compressed_air
  | vapor
  | machine
  | process
  | water
  | other_sockets
  | other
  | INVALID
deriving DecidableEq

/-- The value of each `DeviceUsage` member; `INVALID` has value `None`. -/
def DeviceUsage.val : DeviceUsage → Option Nat
  | .main_incomer => some 1
  | .sub_head_of_group => some 2
  | .heating => some 3
  | .cooling => some 4
  | .hvac => some 5
  | .ventilation => some 6
  | .lighting => some 7
  | .office_equipment => some 8
  | .cooking => some 9
  | .food_refrigeration => some 10
  | .elevators => some 11
  | .computers => some 12
  | .renewable_energy_production => some 13
  | .genset => some 14
  | .compressed_air => some 15
  | .vapor => some 16
  | .machine => some 17
  | .process => some 18
  | .water => some 19
  | .other_sockets => some 20
  | .other => some 21
  | .INVALID => none

/-- The members of `DeviceUsage` in declaration order. -/
def deviceUsageMembers : List DeviceUsage :=
  [.main_incomer, .sub_head_of_group, .heating, .cooling, .hvac, .ventilation,
   .lighting, .office_equipment, .cooking, .food_refrigeration, .elevators,
   .computers, .renewable_energy_production, .genset, .compressed_air, .vapor,
   .machine, .process, .water, .other_sockets, .other, .INVALID]

/-- Python's `DeviceUsage(x)` value lookup: the member whose value equals `x`,
or `ValueError` (the spec's `UnknownEnumCode`) when none matches. -/
def deviceUsageOfVal (x : Option Nat) : Except PyError DeviceUsage :=
  match deviceUsageMembers.find? (fun u => u.val = x) with
  | some u => .ok u
  | none => .error .valueError

/-- The `ProductType` enum. -/
inductive ProductType where
  | A9MEM1520
  | A9MEM1521
  | A9MEM1522
  | A9MEM1540
  | A9MEM1541
  | A9MEM1542
  | A9MEM1560
  | A9MEM1561
  | A9MEM1562
  | A9MEM1563
  | A9MEM1570
  | A9MEM1571
  | A9MEM1572
  | LV434020
  | LV434021
  | LV434022
  | LV434023
  | A9MEM1543
  | A9XMC2D3
  | A9XMC1D3
  | A9MEM1564
  | A9MEM1573
  | A9MEM1574
  | A9MEM1590
  | A9MEM1591
  | A9MEM1592
  | A9MEM1593
  | A9MEM1580
  | A9XMWRD
  | SMT10020
deriving DecidableEq

/-- The value of each `ProductType` member: a `(numeric code, human label)`
pair. -/
def ProductType.val : ProductType → Nat × String
  | .A9MEM1520 => (41, "PowerTag M63 1P")
  | .A9MEM1521 => (42, "PowerTag M63 1P+N Top")
  | .A9MEM1522 => (43, "PowerTag M63 1P+N Bottom")
  | .A9MEM1540 => (44, "PowerTag M63 3P")
  | .A9MEM1541 => (45, "PowerTag M63 3P+N Top")
  | .A9MEM1542 => (46, "PowerTag M63 3P+N Bottom")
  | .A9MEM1560 => (81, "PowerTag F63 1P+N")
  | .A9MEM1561 => (82, "PowerTag P63 1P+N Top")
  | .A9MEM1562 => (83, "PowerTag P63 1P+N Bottom")
  | .A9MEM1563 => (84, "PowerTag P63 1P+N Bottom")
  | .A9MEM1570 => (85, "PowerTag F63 3P+N")
  | .A9MEM1571 => (86, "PowerTag P63 3P+N Top")
  | .A9MEM1572 => (87, "PowerTag P63 3P+N Bottom")
  | .LV434020 => (92, "PowerTag M250 3P")
  | .LV434021 => (93, "PowerTag M250 4P")
  | .LV434022 => (94, "PowerTag M630 3P")
  | .LV434023 => (95, "PowerTag M630 4P")
  | .A9MEM1543 => (96, "PowerTag M63 3P 230 V")
  | .A9XMC2D3 => (97, "PowerTag C 2DI 230 V")
  | .A9XMC1D3 => (98, "PowerTag C IO 230 V")
  | .A9MEM1564 => (101, "PowerTag F63 1P+N 110 V")
  | .A9MEM1573 => (102, "PowerTag F63 3P")
  | .A9MEM1574 => (103, "PowerTag F63 3P+N 110/230 V")
  | .A9MEM1590 => (104, "PowerTag R200")
  | .A9MEM1591 => (105, "PowerTag R600")
  | .A9MEM1592 => (106, "PowerTag R1000")
  | .A9MEM1593 => (107, "PowerTag R2000")
  | .A9MEM1580 => (121, "PowerTag F160")
  | .A9XMWRD => (170, "PowerTag Link display")
  | .SMT10020 => (171, "HeatTag sensor")

/-- The members of `ProductType` in declaration order. -/
def productTypeMembers : List ProductType :=
  [.A9MEM1520, .A9MEM1521, .A9MEM1522, .A9MEM1540, .A9MEM1541, .A9MEM1542,
   .A9MEM1560, .A9MEM1561, .A9MEM1562, .A9MEM1563, .A9MEM1570, .A9MEM1571,
   .A9MEM1572, .LV434020, .LV434021, .LV434022, .LV434023, .A9MEM1543,
   .A9XMC2D3, .A9XMC1D3, .A9MEM1564, .A9MEM1573, .A9MEM1574, .A9MEM1590,
   .A9MEM1591, .A9MEM1592, .A9MEM1593, .A9MEM1580, .A9XMWRD, .SMT10020]

/-- The list comprehension `[p for p in ProductType if p.value[0] == code]` in
`tag_product_type`, where `code` may be `None` (Python `int == None` is
`False`, so `None` matches no member). -/
def productTypeMatches (code : Option Nat) : List ProductType :=
  productTypeMembers.filter (fun p => some p.val.fst = code)

/-- `SYNTHESIS_TABLE_SLAVE_ID_START`. -/
def SYNTHESIS_TABLE_SLAVE_ID_START : Nat := 247

/-- `POWERTAG_LINK_SLAVE_ID`. -/
def POWERTAG_LINK_SLAVE_ID : Nat := 255

/-- Python's `range(247, 1, -1)`: the candidate synthesis-table unit
identifiers 247, 246, ..., 2 in that order. -/
def synthesisCandidates : List Nat :=
  (List.range' 2 246).reverse

/-- The loop body of `find_synthentic_table_slave_id`: return the first
candidate whose 1-word probe read at address `0x0001` does not raise
`ConnectionError`; any other exception propagates; an exhausted candidate list
raises `ConnectionError("Could not find synthetic slave ID")` (the spec's
`SynthesisTableNotFound`). -/
def findSynthAux (tp : Transport) : List Nat → Except PyError Nat
  | [] => .error .connectionError
  | slave_id :: rest =>
    match read_int_16 tp 0x0001 slave_id with
    | .ok _ => .ok slave_id
    | .error .connectionError => findSynthAux tp rest
    | .error e => .error e

/-- `find_synthentic_table_slave_id`. -/
def find_synthentic_table_slave_id (tp : Transport) : Except PyError Nat :=
  findSynthAux tp synthesisCandidates

/-- Python's `x & 1` where `x : Optional[int]`: `None & 1` raises
`TypeError`. -/
def pyAndOptNat (x : Option Nat) (n : Nat) : Except PyError Nat :=
  match x with
  | some v => .ok (v &&& n)
  | none => .error .typeError

/-- `tag_is_alarm_valid`:
`(self.__read_int_16(0xCE1, power_tag_index) & 0b1) != 0`. -/
def tag_is_alarm_valid (tp : Transport) (power_tag_index : Nat) :
    Except PyError Bool := do
  let raw ← read_int_16 tp 0xCE1 power_tag_index
  let masked ← pyAndOptNat raw 0x1
  return masked ≠ 0

/-- `tag_get_alarm`: `AlarmStatus(self.__read_int_16(0xCE3, power_tag_index))`;
`AlarmStatus.__init__` applied to `None` faults on `None & 0b1111_1111` with a
`TypeError`. -/
def tag_get_alarm (tp : Transport) (power_tag_index : Nat) :
    Except PyError AlarmStatus := do
  let raw ← read_int_16 tp 0xCE3 power_tag_index
  match raw with
  | none => throw .typeError
  | some bitmask => return AlarmStatus.ofBitmask bitmask

/-- `tag_usage`: `DeviceUsage(self.__read_int_16(0x7925, power_tag_index))`. -/
def tag_usage (tp : Transport) (power_tag_index : Nat) :
    Except PyError DeviceUsage := do
  let code ← read_int_16 tp 0x7925 power_tag_index
  deviceUsageOfVal code

/-- `tag_product_type`: look the decoded code up in `ProductType`, returning
the first match or `None`. -/
def tag_product_type (tp : Transport) (power_tag_index : Nat) :
    Except PyError (Option ProductType) := do
  let code ← read_int_16 tp 0x7930 power_tag_index
  return (productTypeMatches code).head?

/-- `tag_radio_rssi_inside_tag`: float read at `0x79B6`. -/
def tag_radio_rssi_inside_tag (tp : Transport) (power_tag_index : Nat) :
    Except PyError (Option Nat) :=
  read_float_32 tp 0x79B6 power_tag_index

/-- `tag_radio_rssi_inside_gateway`: float read at `0x79B1`. -/
def tag_radio_rssi_inside_gateway (tp : Transport) (power_tag_index : Nat) :
    Except PyError (Option Nat) :=
  read_float_32 tp 0x79B1 power_tag_index

/-- `tag_radio_rssi_minimum`: float read at `0x79B6`. -/
def tag_radio_rssi_minimum (tp : Transport) (power_tag_index : Nat) :
    Except PyError (Option Nat) :=
  read_float_32 tp 0x79B6 power_tag_index

end PowerTag

deriving instance DecidableEq for Except

namespace PowerTag

/-- A transport that answers every request with the same word list. -/
def tpConst (words : List Nat) : Transport := fun _ _ _ => .ok words

/-- A write transport that accepts every write. -/
def wtpOk : WriteTransport := fun _ _ _ => .ok ()

/-- A transport that responds only for unit identifier 42, with a one-word
payload. -/
def tpOnly42 : Transport := fun _ _ unit =>
  if unit = 42 then .ok [0x7] else .error .connectionError

/-- A transport that never responds. -/
def tpSilent : Transport := fun _ _ _ => .error .connectionError

/-- A transport that serves the binary32 pattern of 1.0 at address `0x79B6`
and the pattern of 2.0 everywhere else. -/
def tpTwoFloats : Transport := fun address _ _ =>
  if address = 0x79B6 then .ok [0x3F80, 0x0] else .ok [0x4000, 0x0]

/-- Whether an `Except` result is a success. -/
def exceptOk {ε α : Type} (e : Except ε α) : Bool :=
  match e with
  | .ok _ => true
  | .error _ => false

/-- C1: the alarm decode is total and the two quoted examples behave as
claimed, but the heattag flags do not equal bits 8, 10 and 11 of the input:
the constructor masks the bitmask to its low eight bits before testing those
bits, so with bits 8, 10 and 11 set every heattag flag is `false` and
`has_alarm` is `false`; moreover with only the reserved bit 2 set `has_alarm`
is `true` although every named flag is `false`. -/
theorem alarmStatus_heattag_bits_dead :
    (AlarmStatus.ofBitmask 0x100).alarm_heattag_alarm = false ∧
    (AlarmStatus.ofBitmask 0x400).alarm_heattag_maintenance = false ∧
    (AlarmStatus.ofBitmask 0x800).alarm_heattag_replacement = false ∧
    (AlarmStatus.ofBitmask 0xD00).has_alarm = false ∧
    AlarmStatus.ofBitmask 0x4 =
      ⟨true, false, false, false, false, false, false, false, false, false⟩ ∧
    AlarmStatus.ofBitmask 0x3 =
      ⟨true, true, true, false, false, false, false, false, false, false⟩ ∧
    AlarmStatus.ofBitmask 0x0 =
      ⟨false, false, false, false, false, false, false, false, false, false⟩ := by
  decide

/-- C2: a register sequence whose bytes are all zero decodes to the empty
string, not to absence — the all-zero guard in `__read_string` compares the
`int` bytes with the `str` `'\x00'` and is therefore never true — while the
zero-stripping path behaves as claimed: the byte sequence `AB\x00\x00CD`
decodes to `"ABCD"`. -/
theorem read_string_all_zero_yields_empty :
    read_string (tpConst [0x0, 0x0]) 0x7918 2 5 4 = .ok (some "") ∧
    read_string (tpConst [0x4142, 0x0, 0x4344]) 0x7944 3 5 6 =
      .ok (some "ABCD") := by
  exact ⟨rfl, rfl⟩

/-- C4 counterexample: with the invalid unit identifier 0, the string read and
the date-time read issue their transport request and return its decoded
payload instead of faulting on a unit-identifier assertion. -/
theorem read_string_date_time_skip_unit_assert :
    read_string (tpConst [0x4142]) 0x7918 10 0x0 20 = .ok (some "AB") ∧
    read_date_time (tpConst [0x18, 0x0105, 0x0A1E, 0x0E74]) 0x0073 0x0 =
      .ok (some ⟨2024, 1, 5, 10, 30, 3, 700⟩) := by
  exact ⟨rfl, rfl⟩

/-- C4 amended: the numeric helpers — the 16-, 32- and 64-bit unsigned reads,
the 32-bit float read and the 16-bit write — validate the unit identifier
against `[1,247] ∪ {255}` and fault by assertion on a violation without
issuing any request (the result does not depend on the transport); the string
and date-time reads carry no such assertion. -/
theorem numeric_helpers_validate_unit (tp : Transport) (wtp : WriteTransport)
    (address unit value : Nat) (h : ¬ unitIdOk unit) :
    read_int_16 tp address unit = .error .assertionError ∧
    read_int_32 tp address unit = .error .assertionError ∧
    read_int_64 tp address unit = .error .assertionError ∧
    read_float_32 tp address unit = .error .assertionError ∧
    write_int_16 wtp address unit value = .error .assertionError := by
  refine ⟨?_, ?_, ?_, ?_, ?_⟩ <;>
    simp [read_int_16, read_int_32, read_int_64, read_float_32, write_int_16, h]

/-- Witness for the amended C4 theorem at the invalid unit identifier 0. -/
theorem numeric_helpers_validate_unit_witness :
    read_int_16 (tpConst [0x1]) 0xCE1 0x0 = .error .assertionError ∧
    read_int_32 (tpConst [0x1]) 0xCE1 0x0 = .error .assertionError ∧
    read_int_64 (tpConst [0x1]) 0xCE1 0x0 = .error .assertionError ∧
    read_float_32 (tpConst [0x1]) 0xCE1 0x0 = .error .assertionError ∧
    write_int_16 wtpOk 0xCE1 0x0 0x1 = .error .assertionError :=
  numeric_helpers_validate_unit (tpConst [0x1]) wtpOk 0xCE1 0x0 0x1 (by decide)

/-- C9 counterexample: on a transport serving distinct float patterns at
`0x79B6` and `0x79B1`, the minimum-RSSI accessor and the gateway-RSSI
accessor return different values, so they do not read the same register
address. -/
theorem rssi_minimum_ne_inside_gateway :
    tag_radio_rssi_minimum tpTwoFloats 5 ≠
      tag_radio_rssi_inside_gateway tpTwoFloats 5 := by
  decide

/-- C9 amended: the accessor pair that reads one shared address is the
minimum-RSSI accessor and the tag-RSSI accessor (both read `0x79B6` with the
32-bit float wire type), so those two are extensionally equal on every
transport state. -/
theorem rssi_minimum_eq_inside_tag (tp : Transport) (power_tag_index : Nat) :
    tag_radio_rssi_minimum tp power_tag_index =
      tag_radio_rssi_inside_tag tp power_tag_index :=
  rfl

/-- C10: when the alarm-validity register reads the 16-bit absence sentinel
`0xFFFF`, the 16-bit decode yields the absent value and the subsequent
bitwise-and with 1 faults with a `TypeError`, so `tag_is_alarm_valid` fails
instead of returning a boolean or an absence. -/
theorem tag_is_alarm_valid_sentinel_faults (tp : Transport)
    (power_tag_index : Nat) (h1 : unitIdOk power_tag_index)
    (h2 : tp 0xCE1 1 power_tag_index = .ok [0xFFFF]) :
    tag_is_alarm_valid tp power_tag_index = .error .typeError := by
  simp [tag_is_alarm_valid, read_int_16, h1, h2, decodeInt16, decode_16bit_uint,
        registersToBytes, pyAndOptNat, Bind.bind, Except.bind, Functor.map,
        Except.map, Pure.pure, Except.pure]

/-- Witness for C10 on a transport whose alarm-validity register is the
sentinel. -/
theorem tag_is_alarm_valid_sentinel_faults_witness :
    tag_is_alarm_valid (tpConst [0xFFFF]) 5 = .error .typeError :=
  tag_is_alarm_valid_sentinel_faults (tpConst [0xFFFF]) 5 (by decide) rfl

/-- C7: for every 16-bit value other than the sentinel, decoding the register
produced by the 16-bit encode yields the value back, and the sentinel `0xFFFF`
encodes to the sentinel word and decodes to absence. -/
theorem int16_encode_decode_roundtrip (v : Nat) (hv : v < 0x10000) :
    (v ≠ 0xFFFF → add_16bit_uint v = .ok [v] ∧ decodeInt16 [v] = .ok (some v)) ∧
    add_16bit_uint 0xFFFF = .ok [0xFFFF] ∧ decodeInt16 [0xFFFF] = .ok none := by
  refine ⟨fun hne => ⟨?_, ?_⟩, rfl, rfl⟩
  · simp [add_16bit_uint, hv]
  · have hb : v / 256 % 256 * 256 + v % 256 = v := by omega
    simp [decodeInt16, decode_16bit_uint, registersToBytes, hb, hne]

/-- Witness for C7 at the value 7. -/
theorem int16_encode_decode_roundtrip_witness :
    ((0x7 : Nat) ≠ 0xFFFF →
      add_16bit_uint 0x7 = .ok [0x7] ∧ decodeInt16 [0x7] = .ok (some 0x7)) ∧
    add_16bit_uint 0xFFFF = .ok [0xFFFF] ∧ decodeInt16 [0xFFFF] = .ok none :=
  int16_encode_decode_roundtrip 0x7 (by decide)

/-- C6: each unsigned decode on a word sequence of its length composes the
words most-significant-first and is absent exactly on its reserved sentinel —
`0xFFFF`, `0x8000_0000` and `0x8000_0000_0000_0000` respectively — and
otherwise yields the composed value itself. -/
theorem decode_uint_sentinel (w a0 a1 b0 b1 b2 b3 : Nat)
    (hw : w < 0x10000) (ha0 : a0 < 0x10000) (ha1 : a1 < 0x10000)
    (hb0 : b0 < 0x10000) (hb1 : b1 < 0x10000) (hb2 : b2 < 0x10000)
    (hb3 : b3 < 0x10000) :
    decodeInt16 [w] = .ok (if w = 0xFFFF then none else some w) ∧
    decodeInt32 [a0, a1] =
      .ok (if a0 * 0x10000 + a1 = 0x80000000 then none
           else some (a0 * 0x10000 + a1)) ∧
    decodeInt64 [b0, b1, b2, b3] =
      .ok (if ((b0 * 0x10000 + b1) * 0x10000 + b2) * 0x10000 + b3 =
              0x8000000000000000 then none
           else some (((b0 * 0x10000 + b1) * 0x10000 + b2) * 0x10000 + b3)) := by
  have h16 : w / 256 % 256 * 256 + w % 256 = w := by omega
  have h32 : ((a0 / 256 % 256 * 256 + a0 % 256) * 256 + a1 / 256 % 256) * 256 +
      a1 % 256 = a0 * 0x10000 + a1 := by omega
  have h64 : ((((((b0 / 256 % 256 * 256 + b0 % 256) * 256 + b1 / 256 % 256) *
      256 + b1 % 256) * 256 + b2 / 256 % 256) * 256 + b2 % 256) * 256 +
      b3 / 256 % 256) * 256 + b3 % 256 =
      ((b0 * 0x10000 + b1) * 0x10000 + b2) * 0x10000 + b3 := by omega
  refine ⟨?_, ?_, ?_⟩
  · simp [decodeInt16, decode_16bit_uint, registersToBytes, h16]
  · simp [decodeInt32, decode_32bit_uint, registersToBytes, h32]
  · simp [decodeInt64, decode_64bit_uint, registersToBytes, h64]

/-- Witness for C6 at the words 1, (2,3) and (4,5,6,7). -/
theorem decode_uint_sentinel_witness :
    decodeInt16 [0x1] = .ok (if (0x1 : Nat) = 0xFFFF then none else some 0x1) ∧
    decodeInt32 [0x2, 0x3] =
      .ok (if (0x2 : Nat) * 0x10000 + 0x3 = 0x80000000 then none
           else some (0x2 * 0x10000 + 0x3)) ∧
    decodeInt64 [0x4, 0x5, 0x6, 0x7] =
      .ok (if (((0x4 : Nat) * 0x10000 + 0x5) * 0x10000 + 0x6) * 0x10000 + 0x7 =
              0x8000000000000000 then none
           else some (((0x4 * 0x10000 + 0x5) * 0x10000 + 0x6) * 0x10000 + 0x7)) :=
  decode_uint_sentinel 0x1 0x2 0x3 0x4 0x5 0x6 0x7 (by decide) (by decide)
    (by decide) (by decide) (by decide) (by decide) (by decide)

/-- C8: product-type lookup is an open enumeration — code 92 yields
`LV434020` and an unmapped code yields no match rather than a failure — while
device-usage decode is closed: code 21 yields `other`, an unmapped code fails
(`ValueError`, the spec's `UnknownEnumCode`), and the wire sentinel `0xFFFF`,
decoded to the absent value, selects the dedicated `INVALID` member. -/
theorem enum_decode_policies (c d : Nat)
    (hc : ∀ p ∈ productTypeMembers, p.val.fst ≠ c)
    (hd : ∀ u ∈ deviceUsageMembers, u.val ≠ some d) :
    tag_product_type (tpConst [0x5C]) 5 = .ok (some ProductType.LV434020) ∧
    (productTypeMatches (some c)).head? = none ∧
    tag_usage (tpConst [0x15]) 5 = .ok DeviceUsage.other ∧
    deviceUsageOfVal (some d) = .error .valueError ∧
    tag_usage (tpConst [0xFFFF]) 5 = .ok DeviceUsage.INVALID := by
  refine ⟨rfl, ?_, rfl, ?_, rfl⟩
  · have hnil : productTypeMatches (some c) = [] := by
      rw [productTypeMatches, List.filter_eq_nil_iff]
      intro p hp
      simpa using fun hcc => hc p hp hcc
    rw [hnil]
    rfl
  · have hfind : deviceUsageMembers.find? (fun u => u.val = some d) = none :=
      List.find?_eq_none.mpr (by intro u hu; simpa using hd u hu)
    simp [deviceUsageOfVal, hfind]

/-- Witness for C8 at the unmapped product code 0 and device-usage code 22. -/
theorem enum_decode_policies_witness :
    tag_product_type (tpConst [0x5C]) 5 = .ok (some ProductType.LV434020) ∧
    (productTypeMatches (some 0x0)).head? = none ∧
    tag_usage (tpConst [0x15]) 5 = .ok DeviceUsage.other ∧
    deviceUsageOfVal (some 0x16) = .error .valueError ∧
    tag_usage (tpConst [0xFFFF]) 5 = .ok DeviceUsage.INVALID :=
  enum_decode_policies 0x0 0x16 (by decide) (by decide)

/-- The probe loop returns the first candidate in list order whose probe read
succeeds, provided every failing probe fails with `ConnectionError` (any
other exception would propagate out of the loop). -/
theorem findSynthAux_first_success (tp : Transport) (l : List Nat)
    (h : ∀ u ∈ l, read_int_16 tp 0x0001 u = .error .connectionError ∨
         exceptOk (read_int_16 tp 0x0001 u) = true) :
    findSynthAux tp l =
      (l.find? (fun u => exceptOk (read_int_16 tp 0x0001 u))).elim
        (.error .connectionError) .ok := by
  induction l with
  | nil => rfl
  | cons u rest ih =>
    have hu := h u (List.mem_cons_self u rest)
    have hrest := fun x hx => h x (List.mem_cons_of_mem u hx)
    cases hres : read_int_16 tp 0x0001 u with
    | ok r =>
      rw [List.find?_cons_of_pos _ (by simp [exceptOk, hres])]
      simp [findSynthAux, hres]
    | error e =>
      have he : e = .connectionError := by
        rcases hu with h1 | h1
        · rw [hres] at h1
          exact Except.error.inj h1
        · rw [hres] at h1
          simp [exceptOk] at h1
      subst he
      rw [List.find?_cons_of_neg _ (by simp [exceptOk, hres])]
      simp only [findSynthAux, hres]
      exact ih hrest

set_option maxRecDepth 40000 in
/-- C5: the synthesis-table resolution probes the candidates 247 down to 2 in
strictly descending order (one 1-word read at the product-ID address `0x0001`
per candidate, as `findSynthAux` issues) and returns the first candidate whose
probe succeeds; on a transport answering only unit 42 it returns 42, and on a
transport that never answers it fails with the `ConnectionError` that models
`SynthesisTableNotFound`. -/
theorem find_synth_probes_descending (tp : Transport)
    (h : ∀ u ∈ synthesisCandidates,
      read_int_16 tp 0x0001 u = .error .connectionError ∨
      exceptOk (read_int_16 tp 0x0001 u) = true) :
    (∀ u, u ∈ synthesisCandidates ↔ (2 ≤ u ∧ u ≤ 247)) ∧
    synthesisCandidates.Chain' (fun a b => b < a) ∧
    synthesisCandidates.head? = some 247 ∧
    find_synthentic_table_slave_id tp =
      (synthesisCandidates.find?
        (fun u => exceptOk (read_int_16 tp 0x0001 u))).elim
        (.error .connectionError) .ok ∧
    find_synthentic_table_slave_id tpOnly42 = .ok 42 ∧
    find_synthentic_table_slave_id tpSilent = .error .connectionError := by
  refine ⟨?_, ?_, by rfl,
    findSynthAux_first_success tp synthesisCandidates h, by rfl, by rfl⟩
  · intro u
    rw [synthesisCandidates, List.mem_reverse, List.mem_range'_1]
    omega
  · show ((List.range' 2 246).reverse).Chain' (fun a b => b < a)
    exact (List.pairwise_reverse.mpr (List.pairwise_lt_range' 2 246)).chain'

set_option maxRecDepth 40000 in
/-- Witness for C5 on the transport that never answers. -/
theorem find_synth_probes_descending_witness :
    find_synthentic_table_slave_id tpOnly42 = .ok 42 ∧
    find_synthentic_table_slave_id tpSilent = .error .connectionError :=
  ⟨(find_synth_probes_descending tpSilent (by decide)).2.2.2.2.1,
   (find_synth_probes_descending tpSilent (by decide)).2.2.2.2.2⟩

set_option maxRecDepth 8000 in
/-- Evaluation of `__read_date_time` on four register words: absent exactly
when all four words are `0xFFFF`, else the `datetime` built from the
documented bit fields (year = low 7 bits + 2000, month/day = 4+5 bits,
hour/minute = 5+6 bits, second = field div 1000, millisecond = field mod
1000). -/
theorem read_date_time_eval (a u w0 w1 w2 w3 : Nat)
    (h0 : w0 < 0x10000) (h1 : w1 < 0x10000) (h2 : w2 < 0x10000)
    (h3 : w3 < 0x10000) :
    read_date_time (tpConst [w0, w1, w2, w3]) a u =
      if w0 = 0xFFFF ∧ w1 = 0xFFFF ∧ w2 = 0xFFFF ∧ w3 = 0xFFFF then .ok none
      else (datetimeNew (w0 % 128 + 2000) (w1 / 256 % 16) (w1 % 32)
              (w2 / 256 % 32) (w2 % 64) (w3 / 1000) (w3 % 1000)).bind
             (fun dt => .ok (some dt)) := by
  have hb0 : w0 / 256 % 256 * 256 + w0 % 256 = w0 := by omega
  have hb1 : w1 / 256 % 256 * 256 + w1 % 256 = w1 := by omega
  have hb2 : w2 / 256 % 256 * 256 + w2 % 256 = w2 := by omega
  have hb3 : w3 / 256 % 256 * 256 + w3 % 256 = w3 := by omega
  have e0 : w0 &&& 127 = w0 % 128 := Nat.and_pow_two_sub_one_eq_mod w0 7
  have e1a : w1 &&& 31 = w1 % 32 := Nat.and_pow_two_sub_one_eq_mod w1 5
  have e1b : w1 >>> 8 &&& 15 = w1 / 256 % 16 := by
    rw [Nat.shiftRight_eq_div_pow]
    exact Nat.and_pow_two_sub_one_eq_mod (w1 / 2 ^ 8) 4
  have e2a : w2 &&& 63 = w2 % 64 := Nat.and_pow_two_sub_one_eq_mod w2 6
  have e2b : w2 >>> 8 &&& 31 = w2 / 256 % 32 := by
    rw [Nat.shiftRight_eq_div_pow]
    exact Nat.and_pow_two_sub_one_eq_mod (w2 / 2 ^ 8) 5
  have hms : w3 - w3 / 1000 * 1000 = w3 % 1000 := by omega
  simp [read_date_time, tpConst, registersToBytes, decode_16bit_uint,
        Bind.bind, Except.bind, Pure.pure, Except.pure, hb0, hb1, hb2, hb3,
        e0, e1a, e1b, e2a, e2b, hms]

/-- C3: the packed date-time decode of four register words is absent exactly
when all four words are `0xFFFF`; otherwise it decomposes the words by the
documented bit fields and builds a calendar date-time through the
range-checked constructor (which fails with the `ValueError` modelling
`InvalidTimestamp` on an out-of-range field, as the month-13 example shows);
decoding `(24, 0x0105, 0x0A1E, 0x0E74)` yields year 2024, month 1, day 5,
hour 10, minute 30, second 3 and sub-second field 700. -/
theorem read_date_time_spec (a u w0 w1 w2 w3 : Nat)
    (h0 : w0 < 0x10000) (h1 : w1 < 0x10000) (h2 : w2 < 0x10000)
    (h3 : w3 < 0x10000) :
    (read_date_time (tpConst [w0, w1, w2, w3]) a u = .ok none ↔
      (w0 = 0xFFFF ∧ w1 = 0xFFFF ∧ w2 = 0xFFFF ∧ w3 = 0xFFFF)) ∧
    (¬ (w0 = 0xFFFF ∧ w1 = 0xFFFF ∧ w2 = 0xFFFF ∧ w3 = 0xFFFF) →
      read_date_time (tpConst [w0, w1, w2, w3]) a u =
        (datetimeNew (w0 % 128 + 2000) (w1 / 256 % 16) (w1 % 32)
            (w2 / 256 % 32) (w2 % 64) (w3 / 1000) (w3 % 1000)).bind
          (fun dt => .ok (some dt))) ∧
    read_date_time (tpConst [0x18, 0x0105, 0x0A1E, 0x0E74]) a u =
      .ok (some ⟨2024, 1, 5, 10, 30, 3, 700⟩) ∧
    read_date_time (tpConst [0x18, 0x0D05, 0x0A1E, 0x0E74]) a u =
      .error .valueError := by
  rw [read_date_time_eval a u w0 w1 w2 w3 h0 h1 h2 h3]
  refine ⟨⟨?_, fun hall => by rw [if_pos hall]⟩, fun hno => by rw [if_neg hno],
    by rfl, by rfl⟩
  intro hok
  by_contra hno
  rw [if_neg hno] at hok
  revert hok
  cases datetimeNew (w0 % 128 + 2000) (w1 / 256 % 16) (w1 % 32) (w2 / 256 % 32)
      (w2 % 64) (w3 / 1000) (w3 % 1000) with
  | ok dt =>
    intro hok
    simp [Except.bind] at hok
  | error e =>
    intro hok
    simp [Except.bind] at hok

/-- Witness for C3 at the all-sentinel word sequence. -/
theorem read_date_time_spec_witness :
    (read_date_time (tpConst [0xFFFF, 0xFFFF, 0xFFFF, 0xFFFF]) 0x0073 255 =
        .ok none ↔
      ((0xFFFF : Nat) = 0xFFFF ∧ (0xFFFF : Nat) = 0xFFFF ∧
       (0xFFFF : Nat) = 0xFFFF ∧ (0xFFFF : Nat) = 0xFFFF)) ∧
    (¬ ((0xFFFF : Nat) = 0xFFFF ∧ (0xFFFF : Nat) = 0xFFFF ∧
        (0xFFFF : Nat) = 0xFFFF ∧ (0xFFFF : Nat) = 0xFFFF) →
      read_date_time (tpConst [0xFFFF, 0xFFFF, 0xFFFF, 0xFFFF]) 0x0073 255 =
        (datetimeNew (0xFFFF % 128 + 2000) (0xFFFF / 256 % 16) (0xFFFF % 32)
            (0xFFFF / 256 % 32) (0xFFFF % 64) (0xFFFF / 1000)
            (0xFFFF % 1000)).bind (fun dt => .ok (some dt))) ∧
    read_date_time (tpConst [0x18, 0x0105, 0x0A1E, 0x0E74]) 0x0073 255 =
      .ok (some ⟨2024, 1, 5, 10, 30, 3, 700⟩) ∧
    read_date_time (tpConst [0x18, 0x0D05, 0x0A1E, 0x0E74]) 0x0073 255 =
      .error .valueError :=
  read_date_time_spec 0x0073 255 0xFFFF 0xFFFF 0xFFFF 0xFFFF (by decide)
    (by decide) (by decide) (by decide)

end PowerTag
